import Mathlib

/-!
Verification of the loan-task workflow core (shared workflow module, task
service and maintenance sweep) against its natural-language specification.

The embedding below translates the TypeScript source into Lean:
* enumerated string unions become inductive types;
* ISO-8601 timestamp strings become `Int` milliseconds since the Unix epoch
  (the string form is in bijection with the millisecond value, and every
  comparison in the source goes through `new Date(s).getTime()`);
* optional fields become `Option`;
* an IANA timezone is modelled as its UTC-offset-minutes function
  `Int → Int` (the source obtains exactly this offset per instant through
  `Intl.DateTimeFormat` with `timeZoneName: shortOffset`);
* the ECMAScript `Date` UTC calendar (`Date.UTC`, `getUTCFullYear`,
  `getUTCMonth`, `getUTCDate`, weekday names) is modelled with the standard
  proleptic-Gregorian civil-date arithmetic on day numbers.
-/

namespace LoanTasks

/-- Task statuses, from `TASK_STATUSES` in `types.ts`. -/
inductive TaskStatus where
  | OPEN
  | CLAIMED
  | NEEDS_REVIEW
  | MERGE_DONE
  | MERGE_APPROVED
  | COMPLETED
  | CANCELLED
  | ARCHIVED
deriving DecidableEq, Repr, Fintype

/-- Task categories, from `TASK_TYPES` in `types.ts`. -/
inductive TaskType where
  | LOI
  | VALUE
  | FRAUD
  | LOAN_DOCS
deriving DecidableEq, Repr, Fintype

/-- Urgency levels, from `URGENCY_LEVELS` in `types.ts`. -/
inductive UrgencyLevel where
  | GREEN
  | YELLOW
  | ORANGE
  | RED
deriving DecidableEq, Repr, Fintype

/-- User roles, from `USER_ROLES` in `types.ts`. -/
inductive UserRole where
  | LOAN_OFFICER
  | FILE_CHECKER
  | ADMIN
deriving DecidableEq, Repr, Fintype

open TaskStatus TaskType UrgencyLevel UserRole

/-- The `Pick<UserIdentity, "id" | "displayName">` shape used for
`createdBy` and `assignee`. -/
structure UserRef where
  id : String
  displayName : String
deriving DecidableEq, Repr

/-- The `UserIdentity` interface of `types.ts`. -/
structure UserIdentity where
  id : String
  displayName : String
  roles : List UserRole
deriving DecidableEq, Repr

/-- The `LoanTask` interface of `types.ts`.  Timestamps are epoch
milliseconds. -/
structure LoanTask where
  id : String
  loanName : String
  taskType : TaskType
  dueAt : Int
  urgency : UrgencyLevel
  notes : String
  humperdinkLink : Option String
  serverLocation : Option String
  status : TaskStatus
  createdAt : Int
  updatedAt : Int
  createdBy : UserRef
  assignee : Option UserRef
  archivedAt : Option Int
  completedAt : Option Int
  cancelledAt : Option Int
  lastReminderAt : Option Int
  reviewNotes : Option String
deriving DecidableEq, Repr

/-- The `AppConfig` interface of `types.ts`.  `businessTimezone` is the
zone's UTC-offset-minutes function of the instant, which is what
`zonedOffsetMinutes` extracts from the IANA zone name per instant. -/
structure AppConfig where
  businessTimezone : Int → Int
  businessStartHour : Int
  businessStartMinute : Int
  businessEndHour : Int
  businessEndMinute : Int
  archiveRetentionDays : Int

/-- The `CreateTaskInput` interface of `types.ts`. -/
structure CreateTaskInput where
  loanName : String
  taskType : TaskType
  dueAt : Option Int
  urgency : Option UrgencyLevel
  notes : String
  humperdinkLink : Option String
  serverLocation : Option String
deriving DecidableEq, Repr

/-! ## Workflow state machine (`workflow.ts`) -/

/-- Source `LOAN_DOCS_FLOW` of `workflow.ts`. -/
def LOAN_DOCS_FLOW : List TaskStatus :=
  [OPEN, CLAIMED, MERGE_DONE, MERGE_APPROVED, COMPLETED, ARCHIVED]

/-- Source `STANDARD_FLOW` of `workflow.ts`. -/
def STANDARD_FLOW : List TaskStatus := [OPEN, CLAIMED, COMPLETED, ARCHIVED]

/-- Source `ALWAYS_ALLOWED` of `workflow.ts` (the module the server compiles
against, whose table also carries the re-open edges for COMPLETED and
ARCHIVED); a status missing from the record maps to `[]`, matching the
`?? []` fallback at the use site. -/
def ALWAYS_ALLOWED : TaskStatus → List TaskStatus
  | OPEN => [CANCELLED]
  | CLAIMED => [NEEDS_REVIEW, CANCELLED]
  | NEEDS_REVIEW => [CLAIMED, COMPLETED, CANCELLED]
  | COMPLETED => [NEEDS_REVIEW, OPEN]
  | ARCHIVED => [OPEN]
  | MERGE_DONE => [CANCELLED]
  | MERGE_APPROVED => [CANCELLED]
  | CANCELLED => []

/-- First-occurrence-preserving deduplication, the semantics of
`Array.from(new Set(list))`. -/
def jsSetDedup (l : List TaskStatus) : List TaskStatus :=
  l.foldl (fun acc s => if s ∈ acc then acc else acc ++ [s]) []

/-- The single forward edge of the category flow: `flow[index + 1]` when
`index >= 0 && index < flow.length - 1` in `nextFlowStatuses`.  A status
absent from the flow has `indexOf = flow.length` here (`-1` in the
source), and both fail the guard. -/
def flowSuccessor (taskType : TaskType) (status : TaskStatus) : Option TaskStatus :=
  let flow := if taskType = LOAN_DOCS then LOAN_DOCS_FLOW else STANDARD_FLOW
  let index := flow.indexOf status
  if h : index + 1 < flow.length then some (flow.get ⟨index + 1, h⟩) else none

/-- Source `nextFlowStatuses` of `workflow.ts`. -/
def nextFlowStatuses (task : LoanTask) : List TaskStatus :=
  let next := match flowSuccessor task.taskType task.status with
    | some n => [n]
    | none => []
  jsSetDedup (next ++ ALWAYS_ALLOWED task.status)

/-- Source `hasRole` of `workflow.ts`. -/
def hasRole (user : UserIdentity) (role : UserRole) : Bool :=
  user.roles.contains role

/-- Source `canClaimTask` of `workflow.ts`. -/
def canClaimTask (task : LoanTask) (user : UserIdentity) : Bool :=
  if task.status ≠ OPEN then false
  else if task.taskType = FRAUD ∧ ¬ hasRole user FILE_CHECKER then false
  else true

/-- The test `assignee?.id === user.id` on an optional assignee. -/
def isAssigneeOf (task : LoanTask) (user : UserIdentity) : Bool :=
  match task.assignee with
  | some a => a.id = user.id
  | none => false

/-- Source `canUnclaimTask` of `workflow.ts`. -/
def canUnclaimTask (task : LoanTask) (user : UserIdentity) : Bool :=
  if task.status ≠ CLAIMED then false
  else isAssigneeOf task user || hasRole user ADMIN

/-- Source `canCancelTask` of `workflow.ts`. -/
def canCancelTask (task : LoanTask) (user : UserIdentity) : Bool :=
  (task.createdBy.id = user.id) || hasRole user ADMIN

/-- Source `canMoveToNeedsReview` of `workflow.ts`. -/
def canMoveToNeedsReview (task : LoanTask) (user : UserIdentity) : Bool :=
  if task.status ≠ CLAIMED ∧ task.status ≠ COMPLETED then false
  else (task.createdBy.id = user.id) || isAssigneeOf task user

/-- Source `canMoveNeedsReview` of `workflow.ts`. -/
def canMoveNeedsReview (task : LoanTask) (user : UserIdentity) : Bool :=
  if task.status ≠ NEEDS_REVIEW then false
  else (task.createdBy.id = user.id) || isAssigneeOf task user || hasRole user ADMIN

/-- Source `canCompleteTask` of `workflow.ts`. -/
def canCompleteTask (task : LoanTask) (user : UserIdentity) : Bool :=
  if task.taskType = FRAUD ∧ ¬ hasRole user FILE_CHECKER then false
  else if task.status = CLAIMED ∨ task.status = MERGE_APPROVED ∨ task.status = NEEDS_REVIEW then
    (task.createdBy.id = user.id) || isAssigneeOf task user || hasRole user ADMIN
  else false

/-- Render a status name, as interpolated into the rejection reason. -/
def statusName : TaskStatus → String
  | OPEN => "OPEN"
  | CLAIMED => "CLAIMED"
  | NEEDS_REVIEW => "NEEDS_REVIEW"
  | MERGE_DONE => "MERGE_DONE"
  | MERGE_APPROVED => "MERGE_APPROVED"
  | COMPLETED => "COMPLETED"
  | CANCELLED => "CANCELLED"
  | ARCHIVED => "ARCHIVED"

/-- The invalid-edge rejection reason of `canTransitionStatus`. -/
def cannotMoveMsg (fromStatus toStatus : TaskStatus) : String :=
  "Cannot move from " ++ statusName fromStatus ++ " to " ++ statusName toStatus

/-- Result shape `{ ok: boolean; reason?: string }` of
`canTransitionStatus`. -/
inductive TransitionCheck where
  | ok
  | blocked (reason : String)
deriving DecidableEq, Repr

/-- Source `canTransitionStatus` of `workflow.ts`. -/
def canTransitionStatus (task : LoanTask) (next : TaskStatus) (user : UserIdentity) :
    TransitionCheck :=
  if next ∉ nextFlowStatuses task then
    .blocked (cannotMoveMsg task.status next)
  else if next = CANCELLED ∧ ¬ canCancelTask task user then
    .blocked "Only the task creator or admin can cancel a task"
  else if next = NEEDS_REVIEW ∧ ¬ canMoveToNeedsReview task user then
    .blocked "Only assignee or creator can mark as needs review"
  else if (next = CLAIMED ∨ next = COMPLETED) ∧ task.status = NEEDS_REVIEW ∧
      ¬ canMoveNeedsReview task user then
    .blocked "Only assignee, creator, or admin can move a needs review task"
  else if next = COMPLETED ∧ ¬ canCompleteTask task user then
    .blocked "User cannot complete this task"
  else
    .ok

/-! ## Calendar arithmetic (`workflow.ts` due-date engine)

The source reads calendar fields of an instant through
`Intl.DateTimeFormat`; the functions below compute the same fields from
epoch milliseconds with proleptic-Gregorian day-number arithmetic, which
is the ECMAScript `Date` UTC calendar. -/

/-- Civil date from a day number (days since 1970-01-01), the
proleptic-Gregorian conversion used by the ECMAScript `Date` UTC
accessors. -/
def civilFromDays (z0 : Int) : Int × Int × Int :=
  let z := z0 + 719468
  let era := z / 146097
  let doe := z - era * 146097
  let yoe := (doe - doe / 1460 + doe / 36524 - doe / 146096) / 365
  let y := yoe + era * 400
  let doy := doe - (365 * yoe + yoe / 4 - yoe / 100)
  let mp := (5 * doy + 2) / 153
  let d := doy - (153 * mp + 2) / 5 + 1
  let m := mp + (if mp < 10 then 3 else -9)
  (if m ≤ 2 then y + 1 else y, m, d)

/-- Day number of a civil date, the `Date.UTC(year, month - 1, day)`
computation divided by one day of milliseconds. -/
def daysFromCivil (y0 m d : Int) : Int :=
  let y := if m ≤ 2 then y0 - 1 else y0
  let era := y / 400
  let yoe := y - era * 400
  let doy := (153 * (m + (if m > 2 then -3 else 9)) + 2) / 5 + d - 1
  let doe := yoe * 365 + yoe / 4 - yoe / 100 + doy
  era * 146097 + doe - 719468

/-- Weekday number of a day number, with the ECMAScript `getDay`
convention 0 = Sunday … 6 = Saturday (day 0, 1970-01-01, is a Thursday,
number 4). -/
def weekdayOfDays (z : Int) : Int := (z + 4) % 7

/-- Source `isWeekend` of `workflow.ts`: the weekday name is `"Sat"` or
`"Sun"`. -/
def isWeekend (weekday : Int) : Bool := weekday = 6 ∨ weekday = 0

/-- The calendar fields `zonedParts` extracts for an instant in a
timezone. -/
structure ZonedParts where
  year : Int
  month : Int
  day : Int
  weekday : Int
  hour : Int
  minute : Int
deriving DecidableEq, Repr

/-- Milliseconds in one minute, hour and day. -/
def minuteMs : Int := 60 * 1000

def hourMs : Int := 60 * 60 * 1000

def dayMs : Int := 24 * 60 * 60 * 1000

/-- Source `zonedParts` of `workflow.ts`: the wall-clock fields of `date` in
`timezone`, read off the instant shifted by the zone offset. -/
def zonedParts (date : Int) (timezone : Int → Int) : ZonedParts :=
  let localMs := date + timezone date * minuteMs
  let days := localMs / dayMs
  let msOfDay := localMs % dayMs
  let ymd := civilFromDays days
  { year := ymd.1
    month := ymd.2.1
    day := ymd.2.2
    weekday := weekdayOfDays days
    hour := msOfDay / hourMs
    minute := (msOfDay % hourMs) / minuteMs }

/-- Source `isBusinessDate` of `workflow.ts`: the UTC weekday of the civil date
is not Saturday or Sunday. -/
def isBusinessDate (y m d : Int) : Bool :=
  ¬ isWeekend (weekdayOfDays (daysFromCivil y m d))

/-- Business-day test directly on a day number. -/
def isBusinessDay (z : Int) : Bool := ¬ isWeekend (weekdayOfDays z)

/-- Advance a day-number cursor to the first business day at or after it.
Within any seven consecutive days there is a business day, so seven
steps of the `while (!isBusinessDate(...))` loop always suffice. -/
def skipToBusinessDay (z : Int) : Nat → Int
  | 0 => z
  | n + 1 => if isBusinessDay z then z else skipToBusinessDay (z + 1) n

/-- The day-number core of `nextBusinessDate`: the first `while` loop
consumes `count` business days (each step moves the cursor one day and
stops counting at business days), and the second loop then skips any
remaining weekend days. -/
def nextBusinessDays (z : Int) : Nat → Int
  | 0 => skipToBusinessDay z 7
  | n + 1 => nextBusinessDays (skipToBusinessDay (z + 1) 7) n

/-- Source `nextBusinessDate` of `workflow.ts`, on civil dates. -/
def nextBusinessDate (y m d : Int) (count : Nat) : Int × Int × Int :=
  civilFromDays (nextBusinessDays (daysFromCivil y m d) count)

/-- Source `zonedToUtcIso` of `workflow.ts`: pretend the wall-clock fields are
UTC, then subtract the zone offset sampled at that guess. -/
def zonedToUtcMs (y m d hour minute : Int) (timezone : Int → Int) : Int :=
  let guessUtc := daysFromCivil y m d * dayMs + hour * hourMs + minute * minuteMs
  guessUtc - timezone guessUtc * minuteMs

/-- Source `computeDueAtFromUrgency` of `workflow.ts`. -/
def computeDueAtFromUrgency (urgency : UrgencyLevel) (now : Int) (config : AppConfig) : Int :=
  if urgency = RED then now
  else if urgency = ORANGE then now + 60 * 60 * 1000
  else
    let localNow := zonedParts now config.businessTimezone
    let nowMinutes := localNow.hour * 60 + localNow.minute
    let endMinutes := config.businessEndHour * 60 + config.businessEndMinute
    if urgency = YELLOW then
      if ¬ isWeekend localNow.weekday ∧ nowMinutes ≤ endMinutes then
        zonedToUtcMs localNow.year localNow.month localNow.day
          config.businessEndHour config.businessEndMinute config.businessTimezone
      else
        let next := nextBusinessDate localNow.year localNow.month localNow.day 1
        zonedToUtcMs next.1 next.2.1 next.2.2
          config.businessEndHour config.businessEndMinute config.businessTimezone
    else
      if ¬ isWeekend localNow.weekday then
        let next := nextBusinessDate localNow.year localNow.month localNow.day 1
        zonedToUtcMs next.1 next.2.1 next.2.2
          config.businessEndHour config.businessEndMinute config.businessTimezone
      else
        let firstBusiness := nextBusinessDate localNow.year localNow.month localNow.day 0
        zonedToUtcMs firstBusiness.1 firstBusiness.2.1 firstBusiness.2.2
          config.businessEndHour config.businessEndMinute config.businessTimezone

/-- Source `computeDefaultDueAt` of `workflow.ts` (the task type is unused). -/
def computeDefaultDueAt (_taskType : TaskType) (now : Int) (urgency : UrgencyLevel)
    (config : AppConfig) : Int :=
  computeDueAtFromUrgency urgency now config

/-! ## Overdue, purge and reminder predicates (`workflow.ts`) -/

/-- Source `isOverdue` of `workflow.ts`. -/
def isOverdue (task : LoanTask) (now : Int) : Bool :=
  if task.status = COMPLETED ∨ task.status = ARCHIVED ∨ task.status = CANCELLED then false
  else task.dueAt < now

/-- Source `shouldPurgeArchived` of `workflow.ts`. -/
def shouldPurgeArchived (task : LoanTask) (now : Int) (retentionDays : Int) : Bool :=
  if task.status ≠ ARCHIVED then false
  else match task.archivedAt with
    | none => false
    | some archivedAt => now - archivedAt > retentionDays * dayMs

/-- Source `isWithinBusinessHours` of `workflow.ts`. -/
def isWithinBusinessHours (now : Int) (config : AppConfig) : Bool :=
  let parts := zonedParts now config.businessTimezone
  if isWeekend parts.weekday then false
  else
    let minutes := parts.hour * 60 + parts.minute
    let start := config.businessStartHour * 60 + config.businessStartMinute
    let stop := config.businessEndHour * 60 + config.businessEndMinute
    start ≤ minutes ∧ minutes ≤ stop

/-- Source `shouldSendReminder` of `workflow.ts`. -/
def shouldSendReminder (task : LoanTask) (now : Int) (config : AppConfig) : Bool :=
  if ¬ isOverdue task now then false
  else match task.lastReminderAt with
    | some lastReminderAt =>
      if now - lastReminderAt < 60 * 60 * 1000 then false
      else isWithinBusinessHours now config
    | none => isWithinBusinessHours now config

/-! ## Task service (`task-service.ts`)

The service is modelled as pure state transformers on the stored task
list.  The store's `upsertTask` replaces the first task with the same id
or appends; the wall clock, the generated uuid and the app config become
explicit arguments.  A thrown `Error` becomes `Except.error` with the
thrown message: the throw happens before any store write, so the error
cases leave the stored list untouched by construction.  History events
and notification payloads do not feed back into task state and are not
modelled, except for the sweep's fallible notification delivery, which is
modelled separately below for the error-propagation analysis. -/

/-- Source `ACTIVE_STATUSES` of `task-service.ts`. -/
def ACTIVE_STATUSES : List TaskStatus :=
  [OPEN, CLAIMED, NEEDS_REVIEW, MERGE_DONE, MERGE_APPROVED]

/-- Source `TaskStore.upsertTask`: replace the first entry with the same id,
else append. -/
def upsertTask : List LoanTask → LoanTask → List LoanTask
  | [], task => [task]
  | entry :: rest, task =>
    if entry.id = task.id then task :: rest else entry :: upsertTask rest task

/-- Source `TaskStore.findTask`. -/
def findTask (tasks : List LoanTask) (taskId : String) : Option LoanTask :=
  tasks.find? (fun task => task.id = taskId)

/-- The trimmed optional free-text fields of `createTask`:
`input.x?.trim()` is kept only when truthy, i.e. nonempty after
trimming. -/
def keptTrimmed (value : Option String) : Option String :=
  match value with
  | some s => if s.trim = "" then none else some s.trim
  | none => none

/-- Source `TaskService.createTask`.  Returns the created task and the new
stored list. -/
def createTask (tasks : List LoanTask) (input : CreateTaskInput) (user : UserIdentity)
    (now : Int) (newId : String) (config : AppConfig) : LoanTask × List LoanTask :=
  let urgency := input.urgency.getD GREEN
  let task : LoanTask :=
    { id := newId
      loanName := input.loanName.trim
      taskType := input.taskType
      dueAt := input.dueAt.getD (computeDefaultDueAt input.taskType now urgency config)
      urgency := urgency
      notes := input.notes.trim
      humperdinkLink := keptTrimmed input.humperdinkLink
      serverLocation := keptTrimmed input.serverLocation
      status := OPEN
      createdAt := now
      updatedAt := now
      createdBy := { id := user.id, displayName := user.displayName }
      assignee := none
      archivedAt := none
      completedAt := none
      cancelledAt := none
      lastReminderAt := none
      reviewNotes := none }
  (task, upsertTask tasks task)

/-- Source `TaskService.claimTask`. -/
def claimTask (tasks : List LoanTask) (taskId : String) (user : UserIdentity)
    (now : Int) : Except String (LoanTask × List LoanTask) :=
  match findTask tasks taskId with
  | none => .error "Task not found"
  | some task =>
    if ¬ canClaimTask task user then .error "Task cannot be claimed by this user"
    else
      let updated := { task with
        status := CLAIMED
        assignee := some { id := user.id, displayName := user.displayName }
        updatedAt := now }
      .ok (updated, upsertTask tasks updated)

/-- Stored list after a claim request: an error leaves the store
untouched because the throw precedes the upsert. -/
def claimTaskStore (tasks : List LoanTask) (taskId : String) (user : UserIdentity)
    (now : Int) : List LoanTask :=
  match claimTask tasks taskId user now with
  | .ok (_, tasks') => tasks'
  | .error _ => tasks

/-- Source `TaskService.unclaimTask`. -/
def unclaimTask (tasks : List LoanTask) (taskId : String) (user : UserIdentity)
    (now : Int) : Except String (LoanTask × List LoanTask) :=
  match findTask tasks taskId with
  | none => .error "Task not found"
  | some task =>
    if ¬ canUnclaimTask task user then .error "Only assignee or admin can unclaim this task"
    else
      let updated := { task with status := OPEN, assignee := none, updatedAt := now }
      .ok (updated, upsertTask tasks updated)

/-- Source `TaskService.transitionStatus`. -/
def transitionStatus (tasks : List LoanTask) (taskId : String) (next : TaskStatus)
    (user : UserIdentity) (reviewNotes : Option String) (now : Int) :
    Except String (LoanTask × List LoanTask) :=
  match findTask tasks taskId with
  | none => .error "Task not found"
  | some task =>
    match canTransitionStatus task next user with
    | .blocked reason => .error reason
    | .ok =>
      let updated := { task with
        status := next
        updatedAt := now
        completedAt := if next = COMPLETED then some now else task.completedAt
        cancelledAt := if next = CANCELLED then some now else task.cancelledAt
        archivedAt := if next = ARCHIVED then some now else task.archivedAt
        reviewNotes :=
          if next = NEEDS_REVIEW then
            match reviewNotes with
            | some s => if s = "" then task.reviewNotes else some s
            | none => task.reviewNotes
          else task.reviewNotes }
      .ok (updated, upsertTask tasks updated)

/-! ## Maintenance sweep (`TaskService.runMaintenance`) -/

/-- The auto-archive reference timestamp
`task.completedAt ?? task.cancelledAt ?? task.updatedAt`. -/
def archiveReference (task : LoanTask) : Int :=
  match task.completedAt with
  | some completedAt => completedAt
  | none =>
    match task.cancelledAt with
    | some cancelledAt => cancelledAt
    | none => task.updatedAt

/-- The auto-archive step of the `runMaintenance` loop body: COMPLETED
or CANCELLED tasks older than 14 days become ARCHIVED.  Returns the task
and the autoArchived flag. -/
def archiveStep (now : Int) (task : LoanTask) : LoanTask × Bool :=
  if (task.status = COMPLETED ∨ task.status = CANCELLED) ∧
      now - archiveReference task > 14 * dayMs then
    ({ task with status := ARCHIVED, archivedAt := some now, updatedAt := now }, true)
  else (task, false)

/-- The reminder step of the `runMaintenance` loop body, applied to the
possibly just-archived task: overdue active tasks whose reminder is due
get `lastReminderAt` stamped.  Returns the task and the reminded flag. -/
def reminderStep (config : AppConfig) (now : Int) (task : LoanTask) : LoanTask × Bool :=
  if task.status ∈ ACTIVE_STATUSES ∧ shouldSendReminder task now config ∧
      isOverdue task now then
    ({ task with lastReminderAt := some now, updatedAt := now }, true)
  else (task, false)

/-- One iteration of the `runMaintenance` loop body on a single task:
auto-archive, then reminder.  Returns the updated task and the
(autoArchived, reminded) flags. -/
def maintainTask (config : AppConfig) (now : Int) (task : LoanTask) :
    LoanTask × Bool × Bool :=
  let archived := archiveStep now task
  let reminded := reminderStep config now archived.1
  (reminded.1, archived.2, reminded.2)

/-- Source `TaskService.runMaintenance` with the notification deliveries elided:
apply `maintainTask` to every task, then purge stale archived tasks.
Returns the retained list and the (reminded, autoArchived, purged)
counters.  The batch write replaces the store contents with the retained
list whenever any counter is nonzero, so the retained list is the stored
state after the sweep. -/
def runMaintenance (config : AppConfig) (now : Int) (tasks : List LoanTask) :
    List LoanTask × Nat × Nat × Nat :=
  let processed := tasks.map (maintainTask config now)
  let updatedTasks := processed.map (fun p => p.1)
  let autoArchived := (processed.filter (fun p => p.2.1)).length
  let reminded := (processed.filter (fun p => p.2.2)).length
  let toPurge := updatedTasks.filter
    (fun task => shouldPurgeArchived task now config.archiveRetentionDays)
  let retained := updatedTasks.filter
    (fun task => ¬ toPurge.any (fun purge => purge.id = task.id))
  (retained, reminded, autoArchived, toPurge.length)

/-- Source `TaskService.runMaintenance` with the control flow of the awaited
notification deliveries kept: the loop body awaits
`notifyAllTargets` for every reminded task, and a rejected delivery
(`notifyOk` false) propagates out of the async function, abandoning the
remaining tasks, the purge pass and the batch write. -/
def runMaintenanceLoop (notifyOk : LoanTask → Bool) (config : AppConfig) (now : Int) :
    List LoanTask → Except String (List LoanTask × Nat × Nat)
  | [] => .ok ([], 0, 0)
  | task :: rest =>
    let step := maintainTask config now task
    if step.2.2 ∧ ¬ notifyOk step.1 then .error "notification delivery failed"
    else
      match runMaintenanceLoop notifyOk config now rest with
      | .error e => .error e
      | .ok (tasks, reminded, autoArchived) =>
        .ok (step.1 :: tasks,
          reminded + (if step.2.2 then 1 else 0),
          autoArchived + (if step.2.1 then 1 else 0))

/-- Source `TaskService.runMaintenance` with fallible notification delivery. -/
def runMaintenanceFallible (notifyOk : LoanTask → Bool) (config : AppConfig) (now : Int)
    (tasks : List LoanTask) : Except String (List LoanTask × Nat × Nat × Nat) :=
  match runMaintenanceLoop notifyOk config now tasks with
  | .error e => .error e
  | .ok (updatedTasks, reminded, autoArchived) =>
    let toPurge := updatedTasks.filter
      (fun task => shouldPurgeArchived task now config.archiveRetentionDays)
    let retained := updatedTasks.filter
      (fun task => ¬ toPurge.any (fun purge => purge.id = task.id))
    .ok (retained, reminded, autoArchived, toPurge.length)

/-! ## Reachable stored states -/

/-- Task-list states reachable through the public operations: starting
from an empty store, any sequence of successful create, claim, unclaim,
transition and maintenance-sweep operations. -/
inductive Reachable : List LoanTask → Prop where
  | init : Reachable []
  | create (l : List LoanTask) (input : CreateTaskInput) (user : UserIdentity)
      (now : Int) (newId : String) (config : AppConfig) :
      Reachable l → Reachable (createTask l input user now newId config).2
  | claim (l : List LoanTask) (taskId : String) (user : UserIdentity) (now : Int)
      (task : LoanTask) (l' : List LoanTask) :
      Reachable l → claimTask l taskId user now = .ok (task, l') → Reachable l'
  | unclaim (l : List LoanTask) (taskId : String) (user : UserIdentity) (now : Int)
      (task : LoanTask) (l' : List LoanTask) :
      Reachable l → unclaimTask l taskId user now = .ok (task, l') → Reachable l'
  | transition (l : List LoanTask) (taskId : String) (next : TaskStatus)
      (user : UserIdentity) (reviewNotes : Option String) (now : Int)
      (task : LoanTask) (l' : List LoanTask) :
      Reachable l → transitionStatus l taskId next user reviewNotes now = .ok (task, l') →
      Reachable l'
  | sweep (l : List LoanTask) (config : AppConfig) (now : Int) :
      Reachable l → Reachable (runMaintenance config now l).1

/-! ## Spec-side transition tables (for claim C1) -/

/-- Modelled from the claim text of C1: the side-edge table the claim
asserts is exhaustive (OPEN to CANCELLED; CLAIMED to NEEDS_REVIEW or
CANCELLED; NEEDS_REVIEW to CLAIMED, COMPLETED or CANCELLED; MERGE_DONE
and MERGE_APPROVED to CANCELLED; nothing else). -/
def claimSideEdges : TaskStatus → List TaskStatus
  | OPEN => [CANCELLED]
  | CLAIMED => [NEEDS_REVIEW, CANCELLED]
  | NEEDS_REVIEW => [CLAIMED, COMPLETED, CANCELLED]
  | MERGE_DONE => [CANCELLED]
  | MERGE_APPROVED => [CANCELLED]
  | _ => []

/-- The claimed side-edge table amended with the two re-open edges the
shipped `ALWAYS_ALLOWED` table also carries: COMPLETED to NEEDS_REVIEW
or OPEN, and ARCHIVED to OPEN. -/
def specSideEdgesAmended : TaskStatus → List TaskStatus
  | COMPLETED => [NEEDS_REVIEW, OPEN]
  | ARCHIVED => [OPEN]
  | s => claimSideEdges s

/-- A concrete COMPLETED standard-category task. -/
def exCompletedTask : LoanTask :=
  { id := "task-completed"
    loanName := "Example Loan"
    taskType := LOI
    dueAt := 0
    urgency := GREEN
    notes := ""
    humperdinkLink := none
    serverLocation := none
    status := COMPLETED
    createdAt := 0
    updatedAt := 0
    createdBy := { id := "u-creator", displayName := "Creator" }
    assignee := some { id := "u-worker", displayName := "Worker" }
    archivedAt := none
    completedAt := some 0
    cancelledAt := none
    lastReminderAt := none
    reviewNotes := none }

/-- Claim C1 as stated is false: for a COMPLETED standard-flow task the
code also offers the re-open edge to OPEN, which is neither the single
forward edge (ARCHIVED) nor one of the side-edges the claim enumerates. -/
theorem c1_counterexample :
    OPEN ∈ nextFlowStatuses exCompletedTask ∧
    flowSuccessor exCompletedTask.taskType exCompletedTask.status ≠ some OPEN ∧
    OPEN ∉ claimSideEdges exCompletedTask.status := by
  decide

/-- Claim C1 (amended): the allowed next statuses of a task are exactly
the union of the single forward edge of its category flow with the
side-edge table that also includes COMPLETED to NEEDS_REVIEW or OPEN and
ARCHIVED to OPEN; and `canTransitionStatus` reports the invalid-edge
rejection exactly on targets outside this set. -/
theorem c1_next_allowed_statuses (task : LoanTask) (next : TaskStatus)
    (user : UserIdentity) :
    (next ∈ nextFlowStatuses task ↔
      flowSuccessor task.taskType task.status = some next ∨
        next ∈ specSideEdgesAmended task.status) ∧
    (canTransitionStatus task next user = .blocked (cannotMoveMsg task.status next) ↔
      next ∉ nextFlowStatuses task) := by
  constructor
  · have h : ∀ (ty : TaskType) (s n : TaskStatus),
        (n ∈ jsSetDedup ((match flowSuccessor ty s with
          | some m => [m]
          | none => []) ++ ALWAYS_ALLOWED s) ↔
          flowSuccessor ty s = some n ∨ n ∈ specSideEdgesAmended s) := by decide
    exact h task.taskType task.status next
  · have hmsg : ∀ (s n : TaskStatus),
        cannotMoveMsg s n ≠ "Only the task creator or admin can cancel a task" ∧
        cannotMoveMsg s n ≠ "Only assignee or creator can mark as needs review" ∧
        cannotMoveMsg s n ≠ "Only assignee, creator, or admin can move a needs review task" ∧
        cannotMoveMsg s n ≠ "User cannot complete this task" := by decide
    by_cases hmem : next ∈ nextFlowStatuses task
    · have hne : canTransitionStatus task next user ≠
          .blocked (cannotMoveMsg task.status next) := by
        unfold canTransitionStatus
        simp only [hmem, not_true_eq_false, if_false]
        split_ifs
        · intro hcontra
          injection hcontra with hs
          exact absurd hs.symm (hmsg _ _).1
        · intro hcontra
          injection hcontra with hs
          exact absurd hs.symm (hmsg _ _).2.1
        · intro hcontra
          injection hcontra with hs
          exact absurd hs.symm (hmsg _ _).2.2.1
        · intro hcontra
          injection hcontra with hs
          exact absurd hs.symm (hmsg _ _).2.2.2
        · intro hcontra
          exact TransitionCheck.noConfusion hcontra
      exact ⟨fun hres => absurd hres hne, fun hnot => absurd hmem hnot⟩
    · unfold canTransitionStatus
      simp [hmem]

/-- Claim C9: the allowed-next-statuses set never contains the task's own
current status, in every status and both category flows. -/
theorem c9_no_self_loop (task : LoanTask) : task.status ∉ nextFlowStatuses task := by
  have h : ∀ (ty : TaskType) (s : TaskStatus),
      s ∉ jsSetDedup ((match flowSuccessor ty s with
        | some m => [m]
        | none => []) ++ ALWAYS_ALLOWED s) := by decide
  exact h task.taskType task.status

/-! ## Due-date claims C4 and C5 -/

/-- Claim C4: for a task created without a caller-supplied dueAt, RED
urgency makes the due instant equal the creation instant and ORANGE
urgency puts it exactly 60 minutes later, for every configured timezone. -/
theorem c4_red_orange_due (tasks : List LoanTask) (input : CreateTaskInput)
    (user : UserIdentity) (now : Int) (newId : String) (config : AppConfig)
    (hdue : input.dueAt = none) :
    (input.urgency.getD GREEN = RED →
      (createTask tasks input user now newId config).1.dueAt =
        (createTask tasks input user now newId config).1.createdAt) ∧
    (input.urgency.getD GREEN = ORANGE →
      (createTask tasks input user now newId config).1.dueAt -
        (createTask tasks input user now newId config).1.createdAt = 60 * minuteMs) := by
  constructor
  · intro hurg
    simp [createTask, hdue, hurg, computeDefaultDueAt, computeDueAtFromUrgency]
  · intro hurg
    simp [createTask, hdue, hurg, computeDefaultDueAt, computeDueAtFromUrgency, minuteMs]

/-- A fixed-offset timezone eight hours west of UTC, the standard offset
of the default business timezone. -/
def tzWest8 : Int → Int := fun _ => -480

/-- A config with the default business rules over the fixed -480 offset. -/
def cfgDefault : AppConfig :=
  { businessTimezone := tzWest8
    businessStartHour := 8
    businessStartMinute := 30
    businessEndHour := 17
    businessEndMinute := 30
    archiveRetentionDays := 90 }

/-- Witness for C4 at a concrete creation. -/
theorem c4_witness :
    ((⟨"W", LOI, none, some RED, "", none, none⟩ : CreateTaskInput).dueAt = none ∧
      (createTask [] ⟨"W", LOI, none, some RED, "", none, none⟩
          ⟨"u1", "User", [LOAN_OFFICER]⟩ 1000 "id-red" cfgDefault).1.dueAt =
        (createTask [] ⟨"W", LOI, none, some RED, "", none, none⟩
          ⟨"u1", "User", [LOAN_OFFICER]⟩ 1000 "id-red" cfgDefault).1.createdAt) ∧
    (createTask [] ⟨"W", LOI, none, some ORANGE, "", none, none⟩
        ⟨"u1", "User", [LOAN_OFFICER]⟩ 1000 "id-orange" cfgDefault).1.dueAt -
      (createTask [] ⟨"W", LOI, none, some ORANGE, "", none, none⟩
        ⟨"u1", "User", [LOAN_OFFICER]⟩ 1000 "id-orange" cfgDefault).1.createdAt =
      60 * minuteMs :=
  ⟨⟨rfl, (c4_red_orange_due [] ⟨"W", LOI, none, some RED, "", none, none⟩
      ⟨"u1", "User", [LOAN_OFFICER]⟩ 1000 "id-red" cfgDefault rfl).1 rfl⟩,
    (c4_red_orange_due [] ⟨"W", LOI, none, some ORANGE, "", none, none⟩
      ⟨"u1", "User", [LOAN_OFFICER]⟩ 1000 "id-orange" cfgDefault rfl).2 rfl⟩

/-- Exhausting the cursor fuel is never needed: a business day occurs
within any seven consecutive days. -/
theorem exists_business_day_lt_seven (z : Int) :
    ∃ k : Nat, k < 7 ∧ isBusinessDay (z + k) = true := by
  by_cases h6 : (z + 4) % 7 = 6
  · refine ⟨2, by norm_num, ?_⟩
    simp [isBusinessDay, isWeekend, weekdayOfDays]
    omega
  · by_cases h0 : (z + 4) % 7 = 0
    · refine ⟨1, by norm_num, ?_⟩
      simp [isBusinessDay, isWeekend, weekdayOfDays]
      omega
    · refine ⟨0, by norm_num, ?_⟩
      simp [isBusinessDay, isWeekend, weekdayOfDays]
      omega

/-- The cursor loop lands on a business day whenever one occurs within
its fuel. -/
theorem skipToBusinessDay_business :
    ∀ (n : Nat) (z : Int), (∃ k : Nat, k < n ∧ isBusinessDay (z + k) = true) →
      isBusinessDay (skipToBusinessDay z n) = true := by
  intro n
  induction n with
  | zero =>
    intro z ⟨k, hk, _⟩
    omega
  | succ m ih =>
    intro z ⟨k, hk, hbd⟩
    by_cases hz : isBusinessDay z = true
    · simp [skipToBusinessDay, hz]
    · have hk0 : k ≠ 0 := by
        intro h0
        rw [h0] at hbd
        simp at hbd
        exact hz (by simpa using hbd)
      obtain ⟨k', rfl⟩ := Nat.exists_eq_succ_of_ne_zero hk0
      have : isBusinessDay (z + 1 + k') = true := by
        have : z + (k' + 1 : Nat) = z + 1 + k' := by push_cast; ring
        rwa [this] at hbd
      simpa [skipToBusinessDay, hz] using ih (z + 1) ⟨k', by omega, this⟩

/-- Skipping to a business day always succeeds with fuel seven. -/
theorem skipToBusinessDay_seven (z : Int) :
    isBusinessDay (skipToBusinessDay z 7) = true :=
  skipToBusinessDay_business 7 z (exists_business_day_lt_seven z)

/-- Skipping from a business day goes nowhere. -/
theorem skipToBusinessDay_eq_self (z : Int) (h : isBusinessDay z = true) :
    ∀ n, skipToBusinessDay z n = z
  | 0 => rfl
  | n + 1 => by simp [skipToBusinessDay, h]

/-- The day the one-step business-date cursor stops at is a weekday. -/
theorem nextBusinessDays_one_business (z : Int) :
    isBusinessDay (nextBusinessDays z 1) = true := by
  have h := skipToBusinessDay_seven (z + 1)
  have hstep : nextBusinessDays z 1 =
      skipToBusinessDay (skipToBusinessDay (z + 1) 7) 7 := rfl
  rw [hstep, skipToBusinessDay_eq_self _ h 7]
  exact h

/-- Claim C5: for YELLOW urgency, a weekday instant at or before (also
exactly at) the configured end-of-business boundary resolves to the same
local day's boundary converted back to UTC; strictly past the boundary
or on a weekend it resolves to the next business date's boundary, and
that date is always a weekday. -/
theorem c5_yellow_boundary (now : Int) (config : AppConfig) :
    (¬ isWeekend (zonedParts now config.businessTimezone).weekday = true →
      (zonedParts now config.businessTimezone).hour * 60 +
          (zonedParts now config.businessTimezone).minute ≤
        config.businessEndHour * 60 + config.businessEndMinute →
      computeDueAtFromUrgency YELLOW now config =
        zonedToUtcMs (zonedParts now config.businessTimezone).year
          (zonedParts now config.businessTimezone).month
          (zonedParts now config.businessTimezone).day
          config.businessEndHour config.businessEndMinute config.businessTimezone) ∧
    ((isWeekend (zonedParts now config.businessTimezone).weekday = true ∨
        config.businessEndHour * 60 + config.businessEndMinute <
          (zonedParts now config.businessTimezone).hour * 60 +
            (zonedParts now config.businessTimezone).minute) →
      computeDueAtFromUrgency YELLOW now config =
        zonedToUtcMs
          (nextBusinessDate (zonedParts now config.businessTimezone).year
            (zonedParts now config.businessTimezone).month
            (zonedParts now config.businessTimezone).day 1).1
          (nextBusinessDate (zonedParts now config.businessTimezone).year
            (zonedParts now config.businessTimezone).month
            (zonedParts now config.businessTimezone).day 1).2.1
          (nextBusinessDate (zonedParts now config.businessTimezone).year
            (zonedParts now config.businessTimezone).month
            (zonedParts now config.businessTimezone).day 1).2.2
          config.businessEndHour config.businessEndMinute config.businessTimezone) ∧
    (∀ z : Int, isBusinessDay (nextBusinessDays z 1) = true) := by
  refine ⟨?_, ?_, nextBusinessDays_one_business⟩
  · intro hweek hle
    simp [computeDueAtFromUrgency, hweek, hle]
  · intro hpast
    rcases hpast with hwk | hlt
    · simp [computeDueAtFromUrgency, hwk]
    · have hnle : ¬ ((zonedParts now config.businessTimezone).hour * 60 +
          (zonedParts now config.businessTimezone).minute ≤
          config.businessEndHour * 60 + config.businessEndMinute) := by omega
      simp [computeDueAtFromUrgency, hnle]

/-- Witness for C5: 2026-02-11 is a Wednesday; the instant whose local
wall clock in the -480-offset zone reads exactly 17:30 that day (the
configured close) still resolves to that same boundary, which is the
instant itself. -/
theorem c5_witness :
    (¬ isWeekend (zonedParts 1770859800000 cfgDefault.businessTimezone).weekday = true) ∧
    (zonedParts 1770859800000 cfgDefault.businessTimezone).hour * 60 +
        (zonedParts 1770859800000 cfgDefault.businessTimezone).minute ≤
      cfgDefault.businessEndHour * 60 + cfgDefault.businessEndMinute ∧
    computeDueAtFromUrgency YELLOW 1770859800000 cfgDefault =
      zonedToUtcMs (zonedParts 1770859800000 cfgDefault.businessTimezone).year
        (zonedParts 1770859800000 cfgDefault.businessTimezone).month
        (zonedParts 1770859800000 cfgDefault.businessTimezone).day
        cfgDefault.businessEndHour cfgDefault.businessEndMinute
        cfgDefault.businessTimezone :=
  ⟨by decide, by decide,
    (c5_yellow_boundary 1770859800000 cfgDefault).1 (by decide) (by decide)⟩

/-! ## Claim C6: restricted FRAUD claiming -/

/-- Claim C6: on an OPEN FRAUD task, claiming without the FILE_CHECKER
role always fails with the permission error and leaves the store
unchanged; claiming with the role succeeds, sets status CLAIMED and sets
the assignee to the claiming identity. -/
theorem c6_fraud_claim (tasks : List LoanTask) (taskId : String) (user : UserIdentity)
    (now : Int) (task : LoanTask) (hfind : findTask tasks taskId = some task)
    (hstatus : task.status = OPEN) (htype : task.taskType = FRAUD) :
    (FILE_CHECKER ∉ user.roles →
      claimTask tasks taskId user now = .error "Task cannot be claimed by this user" ∧
      claimTaskStore tasks taskId user now = tasks) ∧
    (FILE_CHECKER ∈ user.roles →
      claimTask tasks taskId user now =
        .ok ({ task with
            status := CLAIMED
            assignee := some { id := user.id, displayName := user.displayName }
            updatedAt := now },
          upsertTask tasks { task with
            status := CLAIMED
            assignee := some { id := user.id, displayName := user.displayName }
            updatedAt := now })) := by
  constructor
  · intro hrole
    have hclaim : canClaimTask task user = false := by
      simp [canClaimTask, hstatus, htype, hasRole, hrole]
    constructor
    · simp [claimTask, hfind, hclaim]
    · simp [claimTaskStore, claimTask, hfind, hclaim]
  · intro hrole
    have hclaim : canClaimTask task user = true := by
      simp [canClaimTask, hstatus, htype, hasRole, hrole]
    simp [claimTask, hfind, hclaim]

/-- A concrete OPEN FRAUD task. -/
def fraudTask : LoanTask :=
  { id := "fraud-1"
    loanName := "Fraud Restricted"
    taskType := FRAUD
    dueAt := 500
    urgency := GREEN
    notes := ""
    humperdinkLink := none
    serverLocation := none
    status := OPEN
    createdAt := 0
    updatedAt := 0
    createdBy := { id := "admin-1", displayName := "Morgan Admin" }
    assignee := none
    archivedAt := none
    completedAt := none
    cancelledAt := none
    lastReminderAt := none
    reviewNotes := none }

/-- Witness for C6: a plain loan officer is rejected and the store keeps
the task; a file checker claims successfully and becomes the assignee. -/
theorem c6_witness :
    (claimTask [fraudTask] "fraud-1" ⟨"lo-1", "Jamie", [LOAN_OFFICER]⟩ 50 =
        .error "Task cannot be claimed by this user" ∧
      claimTaskStore [fraudTask] "fraud-1" ⟨"lo-1", "Jamie", [LOAN_OFFICER]⟩ 50 =
        [fraudTask]) ∧
    claimTask [fraudTask] "fraud-1" ⟨"fc-1", "Taylor", [LOAN_OFFICER, FILE_CHECKER]⟩ 50 =
      .ok ({ fraudTask with
          status := CLAIMED
          assignee := some { id := "fc-1", displayName := "Taylor" }
          updatedAt := 50 },
        upsertTask [fraudTask] { fraudTask with
          status := CLAIMED
          assignee := some { id := "fc-1", displayName := "Taylor" }
          updatedAt := 50 }) :=
  ⟨(c6_fraud_claim [fraudTask] "fraud-1" ⟨"lo-1", "Jamie", [LOAN_OFFICER]⟩ 50 fraudTask
      rfl rfl rfl).1 (by decide),
    (c6_fraud_claim [fraudTask] "fraud-1" ⟨"fc-1", "Taylor", [LOAN_OFFICER, FILE_CHECKER]⟩
      50 fraudTask rfl rfl rfl).2 (by decide)⟩

/-! ## Sweep lemmas (claims C3, C7, C10) -/

/-- The task list after the per-task passes of a sweep, before the
purge. -/
def sweptTasks (config : AppConfig) (now : Int) (tasks : List LoanTask) : List LoanTask :=
  (tasks.map (maintainTask config now)).map (fun p => p.1)

/-- Unfolding of `runMaintenance` into its passes. -/
theorem runMaintenance_def (config : AppConfig) (now : Int) (tasks : List LoanTask) :
    runMaintenance config now tasks =
      ((sweptTasks config now tasks).filter
          (fun task =>
            ¬ ((sweptTasks config now tasks).filter
                (fun u => shouldPurgeArchived u now config.archiveRetentionDays)).any
              (fun purge => purge.id = task.id)),
        ((tasks.map (maintainTask config now)).filter (fun p => p.2.2)).length,
        ((tasks.map (maintainTask config now)).filter (fun p => p.2.1)).length,
        ((sweptTasks config now tasks).filter
          (fun u => shouldPurgeArchived u now config.archiveRetentionDays)).length) := rfl

/-- Neither loop step changes the task id. -/
theorem archiveStep_id (now : Int) (t : LoanTask) : ((archiveStep now t).1).id = t.id := by
  unfold archiveStep
  split <;> rfl

theorem reminderStep_id (config : AppConfig) (now : Int) (t : LoanTask) :
    ((reminderStep config now t).1).id = t.id := by
  unfold reminderStep
  split <;> rfl

theorem maintainTask_id (config : AppConfig) (now : Int) (t : LoanTask) :
    ((maintainTask config now t).1).id = t.id := by
  show ((reminderStep config now (archiveStep now t).1).1).id = t.id
  rw [reminderStep_id, archiveStep_id]

/-- Neither loop step changes the assignee. -/
theorem archiveStep_assignee (now : Int) (t : LoanTask) :
    ((archiveStep now t).1).assignee = t.assignee := by
  unfold archiveStep
  split <;> rfl

theorem reminderStep_assignee (config : AppConfig) (now : Int) (t : LoanTask) :
    ((reminderStep config now t).1).assignee = t.assignee := by
  unfold reminderStep
  split <;> rfl

theorem maintainTask_assignee (config : AppConfig) (now : Int) (t : LoanTask) :
    ((maintainTask config now t).1).assignee = t.assignee := by
  show ((reminderStep config now (archiveStep now t).1).1).assignee = t.assignee
  rw [reminderStep_assignee, archiveStep_assignee]

/-- The archive step ignores ARCHIVED tasks. -/
theorem archiveStep_archived (now : Int) (t : LoanTask) (h : t.status = ARCHIVED) :
    archiveStep now t = (t, false) := by
  unfold archiveStep
  rw [if_neg]
  rintro ⟨h1 | h1, -⟩ <;> rw [h] at h1 <;> exact TaskStatus.noConfusion h1

/-- The reminder step ignores ARCHIVED tasks. -/
theorem reminderStep_archived (config : AppConfig) (now : Int) (t : LoanTask)
    (h : t.status = ARCHIVED) : reminderStep config now t = (t, false) := by
  unfold reminderStep
  rw [if_neg]
  rintro ⟨hmem, -⟩
  rw [h] at hmem
  simp [ACTIVE_STATUSES] at hmem

/-- The archive step ignores tasks in an active status. -/
theorem archiveStep_active (now : Int) (t : LoanTask) (h : t.status ∈ ACTIVE_STATUSES) :
    archiveStep now t = (t, false) := by
  unfold archiveStep
  rw [if_neg]
  rintro ⟨h1 | h1, -⟩ <;> rw [h1] at h <;> simp [ACTIVE_STATUSES] at h

/-- The reminder step ignores tasks whose reminder was stamped at this
very instant: the hourly throttle reads an elapsed time of zero. -/
theorem reminderStep_stamped (config : AppConfig) (now : Int) (t : LoanTask)
    (h : t.lastReminderAt = some now) : reminderStep config now t = (t, false) := by
  unfold reminderStep
  rw [if_neg]
  rintro ⟨-, hrem, -⟩
  simp [shouldSendReminder, h] at hrem

/-- Either the archive step leaves a task alone, or the result is
ARCHIVED. -/
theorem archiveStep_disj (now : Int) (t : LoanTask) :
    archiveStep now t = (t, false) ∨ ((archiveStep now t).1).status = ARCHIVED := by
  unfold archiveStep
  split
  · right
    rfl
  · left
    rfl

/-- Either the reminder step leaves a task alone, or it stamps the
reminder on a task in an active status. -/
theorem reminderStep_disj (config : AppConfig) (now : Int) (t : LoanTask) :
    reminderStep config now t = (t, false) ∨
      (reminderStep config now t =
          ({ t with lastReminderAt := some now, updatedAt := now }, true) ∧
        t.status ∈ ACTIVE_STATUSES) := by
  unfold reminderStep
  split
  · next hcond => exact Or.inr ⟨rfl, hcond.1⟩
  · left
    rfl

/-- A task both loop steps leave alone is a no-op of the whole loop
body. -/
theorem maintainTask_of_steps (config : AppConfig) (now : Int) (u : LoanTask)
    (ha : archiveStep now u = (u, false)) (hr : reminderStep config now u = (u, false)) :
    maintainTask config now u = (u, false, false) := by
  show ((reminderStep config now (archiveStep now u).1).1, (archiveStep now u).2,
    (reminderStep config now (archiveStep now u).1).2) = (u, false, false)
  rw [ha]
  show ((reminderStep config now u).1, false, (reminderStep config now u).2) =
    (u, false, false)
  rw [hr]

/-- With the clock unchanged, the loop body is idempotent: applying it
to its own output performs no further action. -/
theorem maintainTask_fixed (config : AppConfig) (now : Int) (t : LoanTask) :
    maintainTask config now ((maintainTask config now t).1) =
      ((maintainTask config now t).1, false, false) := by
  rcases archiveStep_disj now t with harch | harch
  · have h1 : (archiveStep now t).1 = t := by rw [harch]
    rcases reminderStep_disj config now t with hrem | ⟨hrem, hact⟩
    · have hu : (maintainTask config now t).1 = t := by
        show (reminderStep config now (archiveStep now t).1).1 = t
        rw [h1, hrem]
      rw [hu]
      exact maintainTask_of_steps config now t harch hrem
    · have hu : (maintainTask config now t).1 =
          { t with lastReminderAt := some now, updatedAt := now } := by
        show (reminderStep config now (archiveStep now t).1).1 = _
        rw [h1, hrem]
      rw [hu]
      refine maintainTask_of_steps config now _ ?_ ?_
      · exact archiveStep_active now _ hact
      · exact reminderStep_stamped config now _ rfl
  · have hrem1 := reminderStep_archived config now (archiveStep now t).1 harch
    have hu : (maintainTask config now t).1 = (archiveStep now t).1 := by
      show (reminderStep config now (archiveStep now t).1).1 = _
      rw [hrem1]
    rw [hu]
    refine maintainTask_of_steps config now _ ?_ ?_
    · exact archiveStep_archived now _ harch
    · exact hrem1

/-- The per-task passes preserve the id multiset of the list. -/
theorem sweptTasks_ids (config : AppConfig) (now : Int) (tasks : List LoanTask) :
    (sweptTasks config now tasks).map (fun t => t.id) = tasks.map (fun t => t.id) := by
  unfold sweptTasks
  rw [List.map_map, List.map_map]
  exact List.map_congr_left (fun t _ => maintainTask_id config now t)

/-- Every member of the swept list is a fixed point of the loop body at
the same instant. -/
theorem mem_sweptTasks_fixed (config : AppConfig) (now : Int) (tasks : List LoanTask)
    (t : LoanTask) (ht : t ∈ sweptTasks config now tasks) :
    maintainTask config now t = (t, false, false) := by
  unfold sweptTasks at ht
  rw [List.map_map] at ht
  obtain ⟨s, _, rfl⟩ := List.mem_map.mp ht
  exact maintainTask_fixed config now s

/-- With distinct ids, matching the purge list by id is the same as the
purge predicate itself. -/
theorem purge_any_eq (config : AppConfig) (now : Int) (tasks : List LoanTask)
    (hnodup : (tasks.map (fun t => t.id)).Nodup) (t : LoanTask)
    (ht : t ∈ sweptTasks config now tasks) :
    ((sweptTasks config now tasks).filter
        (fun u => shouldPurgeArchived u now config.archiveRetentionDays)).any
      (fun purge => purge.id = t.id) =
      shouldPurgeArchived t now config.archiveRetentionDays := by
  have hnd : ((sweptTasks config now tasks).map (fun u => u.id)).Nodup := by
    rw [sweptTasks_ids]
    exact hnodup
  by_cases hp : shouldPurgeArchived t now config.archiveRetentionDays = true
  · rw [hp, List.any_eq_true]
    exact ⟨t, List.mem_filter.mpr ⟨ht, hp⟩, by simp⟩
  · rw [Bool.eq_false_iff.mpr hp, List.any_eq_false]
    intro p hpf
    obtain ⟨hpm, hpp⟩ := List.mem_filter.mp hpf
    simp only [decide_eq_true_eq]
    intro hid
    have hpt : p = t := List.inj_on_of_nodup_map hnd hpm ht hid
    rw [hpt] at hpp
    exact hp hpp

/-- Claim C10: a task stuck in ARCHIVED status with no archivedAt stamp
is never selected by the retention purge, however old and whatever the
retention, so the sweep retains it. -/
theorem c10_archived_without_stamp (config : AppConfig) (now : Int)
    (tasks : List LoanTask) (t : LoanTask) (ht : t ∈ tasks)
    (hstatus : t.status = ARCHIVED) (harch : t.archivedAt = none)
    (hnodup : (tasks.map (fun u => u.id)).Nodup) :
    shouldPurgeArchived t now config.archiveRetentionDays = false ∧
      t ∈ (runMaintenance config now tasks).1 := by
  have hsp : shouldPurgeArchived t now config.archiveRetentionDays = false := by
    simp [shouldPurgeArchived, hstatus, harch]
  refine ⟨hsp, ?_⟩
  have hfixed : maintainTask config now t = (t, false, false) :=
    maintainTask_of_steps config now t (archiveStep_archived now t hstatus)
      (reminderStep_archived config now t hstatus)
  have htm : t ∈ sweptTasks config now tasks := by
    unfold sweptTasks
    rw [List.map_map]
    exact List.mem_map.mpr ⟨t, ht, by rw [Function.comp_apply, hfixed]⟩
  rw [runMaintenance_def]
  refine List.mem_filter.mpr ⟨htm, ?_⟩
  rw [purge_any_eq config now tasks hnodup t htm, hsp]
  simp

/-- Claim C7: with distinct task ids, the purge pass removes exactly the
ARCHIVED tasks whose archivedAt age strictly exceeds the retention,
retains all others, and reports the number removed. -/
theorem c7_retention_purge (config : AppConfig) (now : Int) (tasks : List LoanTask)
    (hnodup : (tasks.map (fun t => t.id)).Nodup) :
    (runMaintenance config now tasks).1 =
      (sweptTasks config now tasks).filter
        (fun t => ¬ shouldPurgeArchived t now config.archiveRetentionDays) ∧
    (runMaintenance config now tasks).2.2.2 =
      ((sweptTasks config now tasks).filter
        (fun t => shouldPurgeArchived t now config.archiveRetentionDays)).length := by
  constructor
  · rw [runMaintenance_def]
    show (sweptTasks config now tasks).filter _ = (sweptTasks config now tasks).filter _
    refine List.filter_congr (fun t ht => ?_)
    rw [purge_any_eq config now tasks hnodup t ht]
  · rfl

/-- Claim C3: running the sweep a second time at the same instant
reports zero reminded, auto-archived and purged and returns the task
list unchanged, from any starting task set. -/
theorem c3_sweep_idempotent (config : AppConfig) (now : Int) (tasks : List LoanTask) :
    runMaintenance config now (runMaintenance config now tasks).1 =
      ((runMaintenance config now tasks).1, 0, 0, 0) := by
  have hsurv : ∀ t ∈ (runMaintenance config now tasks).1,
      t ∈ sweptTasks config now tasks ∧
      shouldPurgeArchived t now config.archiveRetentionDays = false := by
    intro t ht
    rw [runMaintenance_def] at ht
    obtain ⟨hmem, hcond⟩ := List.mem_filter.mp ht
    refine ⟨hmem, ?_⟩
    by_contra hne
    have hp : shouldPurgeArchived t now config.archiveRetentionDays = true := by
      revert hne
      cases shouldPurgeArchived t now config.archiveRetentionDays <;> simp
    have hany : ((sweptTasks config now tasks).filter
        (fun u => shouldPurgeArchived u now config.archiveRetentionDays)).any
          (fun purge => purge.id = t.id) = true :=
      List.any_eq_true.mpr ⟨t, List.mem_filter.mpr ⟨hmem, hp⟩, by simp⟩
    rw [hany] at hcond
    simp at hcond
  have hfix : ∀ t ∈ (runMaintenance config now tasks).1,
      maintainTask config now t = (t, false, false) := by
    intro t ht
    exact mem_sweptTasks_fixed config now tasks t (hsurv t ht).1
  rw [runMaintenance_def config now ((runMaintenance config now tasks).1)]
  have hproc : ((runMaintenance config now tasks).1).map (maintainTask config now) =
      ((runMaintenance config now tasks).1).map (fun t => (t, false, false)) :=
    List.map_congr_left hfix
  have hswept : sweptTasks config now ((runMaintenance config now tasks).1) =
      (runMaintenance config now tasks).1 := by
    unfold sweptTasks
    rw [hproc, List.map_map]
    exact List.map_id' _
  have hpurge : ((runMaintenance config now tasks).1).filter
      (fun u => shouldPurgeArchived u now config.archiveRetentionDays) = [] :=
    List.filter_eq_nil_iff.mpr (fun t ht => by
      rw [(hsurv t ht).2]
      simp)
  refine Prod.ext ?_ (Prod.ext ?_ (Prod.ext ?_ ?_))
  · show (sweptTasks config now ((runMaintenance config now tasks).1)).filter _ =
      (runMaintenance config now tasks).1
    rw [hswept, hpurge]
    simp
  · show ((((runMaintenance config now tasks).1).map
        (maintainTask config now)).filter (fun p => p.2.2)).length = 0
    rw [hproc]
    rw [List.length_eq_zero]
    refine List.filter_eq_nil_iff.mpr (fun p hp => ?_)
    obtain ⟨t, _, rfl⟩ := List.mem_map.mp hp
    simp
  · show ((((runMaintenance config now tasks).1).map
        (maintainTask config now)).filter (fun p => p.2.1)).length = 0
    rw [hproc]
    rw [List.length_eq_zero]
    refine List.filter_eq_nil_iff.mpr (fun p hp => ?_)
    obtain ⟨t, _, rfl⟩ := List.mem_map.mp hp
    simp
  · show ((sweptTasks config now ((runMaintenance config now tasks).1)).filter
        (fun u => shouldPurgeArchived u now config.archiveRetentionDays)).length = 0
    rw [hswept, hpurge]
    rfl

/-- An ARCHIVED task archived 95 days before the witness instant. -/
def staleArchived : LoanTask :=
  { id := "arch-stale"
    loanName := "Old Loan"
    taskType := VALUE
    dueAt := 0
    urgency := GREEN
    notes := ""
    humperdinkLink := none
    serverLocation := none
    status := ARCHIVED
    createdAt := 0
    updatedAt := 0
    createdBy := { id := "u-creator", displayName := "Creator" }
    assignee := none
    archivedAt := some 0
    completedAt := none
    cancelledAt := none
    lastReminderAt := none
    reviewNotes := none }

/-- An ARCHIVED task archived 40 days before the witness instant. -/
def recentArchived : LoanTask :=
  { id := "arch-recent"
    loanName := "Newer Loan"
    taskType := VALUE
    dueAt := 0
    urgency := GREEN
    notes := ""
    humperdinkLink := none
    serverLocation := none
    status := ARCHIVED
    createdAt := 0
    updatedAt := 0
    createdBy := { id := "u-creator", displayName := "Creator" }
    assignee := none
    archivedAt := some (55 * dayMs)
    completedAt := none
    cancelledAt := none
    lastReminderAt := none
    reviewNotes := none }

/-- Witness for C7: with retention 90 days, the sweep at day 95 purges
the task archived 95 days ago, keeps the one archived 40 days ago, and
reports one purge. -/
theorem c7_witness :
    ([staleArchived, recentArchived].map (fun t => t.id)).Nodup ∧
    (runMaintenance cfgDefault (95 * dayMs) [staleArchived, recentArchived]).1 =
      [recentArchived] ∧
    (runMaintenance cfgDefault (95 * dayMs) [staleArchived, recentArchived]).2.2.2 = 1 := by
  have h := c7_retention_purge cfgDefault (95 * dayMs) [staleArchived, recentArchived]
    (by decide)
  refine ⟨by decide, ?_, ?_⟩
  · rw [h.1]
    decide
  · rw [h.2]
    decide

/-- An ARCHIVED task that never received an archivedAt stamp. -/
def ghostArchived : LoanTask :=
  { id := "arch-ghost"
    loanName := "Ghost Loan"
    taskType := VALUE
    dueAt := 0
    urgency := GREEN
    notes := ""
    humperdinkLink := none
    serverLocation := none
    status := ARCHIVED
    createdAt := 0
    updatedAt := 0
    createdBy := { id := "u-creator", displayName := "Creator" }
    assignee := none
    archivedAt := none
    completedAt := none
    cancelledAt := none
    lastReminderAt := none
    reviewNotes := none }

/-- Witness for C10: even a thousand days on, the unstamped ARCHIVED
task is not purge-eligible and survives the sweep. -/
theorem c10_witness :
    ghostArchived.status = ARCHIVED ∧ ghostArchived.archivedAt = none ∧
    shouldPurgeArchived ghostArchived (1000 * dayMs) cfgDefault.archiveRetentionDays =
      false ∧
    ghostArchived ∈ (runMaintenance cfgDefault (1000 * dayMs) [ghostArchived]).1 := by
  have h := c10_archived_without_stamp cfgDefault (1000 * dayMs) [ghostArchived]
    ghostArchived (by decide) rfl rfl (by decide)
  exact ⟨rfl, rfl, h.1, h.2⟩

/-! ## Claim C2: the assignee/status invariant -/

/-- A create request whose dueAt is caller-supplied. -/
def c2Input : CreateTaskInput :=
  { loanName := "Loan"
    taskType := LOI
    dueAt := some 100
    urgency := some GREEN
    notes := ""
    humperdinkLink := none
    serverLocation := none }

/-- The requesting identity for the C2 scenario. -/
def c2User : UserIdentity := { id := "u-creator", displayName := "Creator", roles := [LOAN_OFFICER] }

/-- The freshly created OPEN task of the C2 scenario.  The name and
notes fields keep `String.trim` symbolic, exactly as `createTask`
produces them. -/
def c2OpenTask : LoanTask :=
  { id := "task-1"
    loanName := "Loan".trim
    taskType := LOI
    dueAt := 100
    urgency := GREEN
    notes := "".trim
    humperdinkLink := none
    serverLocation := none
    status := OPEN
    createdAt := 0
    updatedAt := 0
    createdBy := { id := "u-creator", displayName := "Creator" }
    assignee := none
    archivedAt := none
    completedAt := none
    cancelledAt := none
    lastReminderAt := none
    reviewNotes := none }

/-- The same task driven to CLAIMED through `transitionStatus`: the
forward edge OPEN to CLAIMED passes every permission gate, and the
transition endpoint never writes the assignee field. -/
def c2BadTask : LoanTask :=
  { c2OpenTask with status := CLAIMED, updatedAt := 5 }

/-- Claim C2 as stated is false: a reachable store holds a CLAIMED task
with no assignee, produced by create followed by a transition request to
CLAIMED (the forward flow edge), which sets the status but not the
assignee. -/
theorem c2_counterexample :
    Reachable [c2BadTask] ∧ c2BadTask.status = CLAIMED ∧ c2BadTask.assignee = none := by
  refine ⟨?_, rfl, rfl⟩
  have h1 := Reachable.create [] c2Input c2User 0 "task-1" cfgDefault Reachable.init
  have he : (createTask [] c2Input c2User 0 "task-1" cfgDefault).2 = [c2OpenTask] := rfl
  rw [he] at h1
  exact Reachable.transition [c2OpenTask] "task-1" CLAIMED c2User none 5 c2BadTask
    [c2BadTask] h1 rfl

/-- Claim C2 (amended): `claimTask` is the only operation that sets the
assignee and `unclaimTask` the only one that clears it; creation leaves
it absent, and `transitionStatus` and the sweep passes preserve it
verbatim.  Status alone therefore does not determine assignee presence:
the re-open edges carry an assignee into OPEN, and the OPEN-to-CLAIMED
transition edge produces a CLAIMED task without one. -/
theorem c2_assignee_discipline (tasks : List LoanTask) (input : CreateTaskInput)
    (user : UserIdentity) (now : Int) (newId : String) (config : AppConfig)
    (taskId : String) (next : TaskStatus) (reviewNotes : Option String)
    (task : LoanTask) :
    ((createTask tasks input user now newId config).1.assignee = none) ∧
    (∀ t' l', claimTask tasks taskId user now = .ok (t', l') →
      t'.assignee = some { id := user.id, displayName := user.displayName }) ∧
    (∀ t' l', unclaimTask tasks taskId user now = .ok (t', l') → t'.assignee = none) ∧
    (findTask tasks taskId = some task →
      ∀ t' l', transitionStatus tasks taskId next user reviewNotes now = .ok (t', l') →
        t'.assignee = task.assignee) ∧
    (∀ u ∈ tasks, ((maintainTask config now u).1).assignee = u.assignee) := by
  refine ⟨rfl, ?_, ?_, ?_, fun u _ => maintainTask_assignee config now u⟩
  · intro t' l' h
    cases hf : findTask tasks taskId with
    | none =>
      simp only [claimTask, hf] at h
      exact Except.noConfusion h
    | some task0 =>
      simp only [claimTask, hf] at h
      split at h
      · exact Except.noConfusion h
      · simp only [Except.ok.injEq, Prod.mk.injEq] at h
        rw [← h.1]
  · intro t' l' h
    cases hf : findTask tasks taskId with
    | none =>
      simp only [unclaimTask, hf] at h
      exact Except.noConfusion h
    | some task0 =>
      simp only [unclaimTask, hf] at h
      split at h
      · exact Except.noConfusion h
      · simp only [Except.ok.injEq, Prod.mk.injEq] at h
        rw [← h.1]
  · intro hf t' l' h
    simp only [transitionStatus, hf] at h
    split at h
    · exact Except.noConfusion h
    · simp only [Except.ok.injEq, Prod.mk.injEq] at h
      rw [← h.1]

/-- The C2 task after a successful claim. -/
def c2ClaimedTask : LoanTask :=
  { c2OpenTask with
    status := CLAIMED
    assignee := some { id := "u-creator", displayName := "Creator" }
    updatedAt := 5 }

/-- The C2 task after the claim is undone. -/
def c2UnclaimedTask : LoanTask :=
  { c2ClaimedTask with status := OPEN, assignee := none, updatedAt := 6 }

/-- Witness for the amended C2 at concrete operations. -/
theorem c2_witness :
    (createTask [] c2Input c2User 0 "task-1" cfgDefault).1.assignee = none ∧
    c2ClaimedTask.assignee = some { id := "u-creator", displayName := "Creator" } ∧
    c2UnclaimedTask.assignee = none ∧
    c2BadTask.assignee = c2OpenTask.assignee ∧
    ((maintainTask cfgDefault 0 c2OpenTask).1).assignee = c2OpenTask.assignee := by
  refine ⟨(c2_assignee_discipline [] c2Input c2User 0 "task-1" cfgDefault "task-1"
      CLAIMED none c2OpenTask).1, ?_, ?_, ?_, ?_⟩
  · exact (c2_assignee_discipline [c2OpenTask] c2Input c2User 5 "task-1" cfgDefault
      "task-1" CLAIMED none c2OpenTask).2.1 c2ClaimedTask [c2ClaimedTask] rfl
  · exact (c2_assignee_discipline [c2ClaimedTask] c2Input c2User 6 "task-1" cfgDefault
      "task-1" CLAIMED none c2ClaimedTask).2.2.1 c2UnclaimedTask [c2UnclaimedTask] rfl
  · exact (c2_assignee_discipline [c2OpenTask] c2Input c2User 5 "task-1" cfgDefault
      "task-1" CLAIMED none c2OpenTask).2.2.2.1 rfl c2BadTask [c2BadTask] rfl
  · exact (c2_assignee_discipline [c2OpenTask] c2Input c2User 0 "task-1" cfgDefault
      "task-1" CLAIMED none c2OpenTask).2.2.2.2 c2OpenTask (List.mem_singleton.mpr rfl)

/-! ## Claim C8: sweep error propagation -/

/-- An overdue CLAIMED task whose reminder delivery will fail. -/
def c8Task1 : LoanTask :=
  { id := "rem-1"
    loanName := "First Overdue"
    taskType := LOI
    dueAt := 0
    urgency := RED
    notes := ""
    humperdinkLink := none
    serverLocation := none
    status := CLAIMED
    createdAt := 0
    updatedAt := 0
    createdBy := { id := "u-creator", displayName := "Creator" }
    assignee := some { id := "u-worker", displayName := "Worker" }
    archivedAt := none
    completedAt := none
    cancelledAt := none
    lastReminderAt := none
    reviewNotes := none }

/-- A second overdue CLAIMED task, identical but for its id. -/
def c8Task2 : LoanTask :=
  { c8Task1 with id := "rem-2", loanName := "Second Overdue" }

/-- Claim C8 describes intended behaviour the code does not implement:
at a weekday instant inside business hours, with two overdue CLAIMED
tasks both due a reminder, a failing delivery for the first aborts the
whole sweep — no counters are reported, the second task is never
processed and no state is written — although the pure sweep would have
reminded both. -/
theorem c8_sweep_aborts_on_notification_failure :
    runMaintenanceFallible (fun t => if t.id = "rem-1" then false else true)
        cfgDefault 1770840000000 [c8Task1, c8Task2] =
      .error "notification delivery failed" ∧
    (runMaintenance cfgDefault 1770840000000 [c8Task1, c8Task2]).2.1 = 2 :=
  ⟨rfl, by decide⟩

end LoanTasks
